import Mathlib

/-!
Shallow embedding of the slice-router reconciliation fragment of the
kubeslice worker operator (package `slice`, file with `ReconcileSliceRouter`).

Modelling choices:
* Cluster state is explicit: sets (lists) of (namespace, name) keys for
  Deployments, Services and NetworkService objects, plus the list of pods
  carrying the label `app=nsm-vpp-plane` (namespace, pod name).
* The controller-runtime client can fail.  Non-NotFound errors are injected
  through a `Faults` record (one slot per call site); NotFound arises from
  absence in the cluster.  Error values are their message strings.
* Every client call is recorded in a trace of `Op` values; write operations
  carry a flag telling whether they succeeded, and `applyOp` gives the
  effect of a trace entry on the cluster state.
* Go panics (out-of-range slice indexing in `getClusterPrefixPool`, nil
  dereference of `Status.SliceConfig`) are modelled by `Option`/`PanicOr`:
  `none`/`.panic` means the Go code would crash.
* Package-level configuration (`os.Getenv` images, and the constants
  `controllers.ControlPlaneNamespace` / `controllers.ImagePullSecretName`
  from a package outside this fragment) is a `Config` record threaded
  through the functions.
* `ctrl.Result{RequeueAfter: 10 * time.Second}` is modelled by the number
  of seconds in `RequeueAfter` (0 = empty result).
-/

namespace SliceRouter

/-- Package-level configuration: environment-derived image settings and the
constants imported from the `controllers` package. -/
structure Config where
  sliceRouterSidecarImage : String
  sliceRouterSidecarImagePullPolicy : String
  vl3RouterImage : String
  vl3RouterPullPolicy : String
  imagePullSecretName : String
  controlPlaneNamespace : String
deriving DecidableEq, Repr

/-- `SliceIpam` status fragment: the per-cluster IPAM octet. -/
structure SliceIpam where
  ipamClusterOctet : Int
deriving DecidableEq, Repr

/-- `SliceConfig` status fragment: subnet CIDR and IPAM data. -/
structure SliceConfigStatus where
  sliceSubnet : String
  sliceIpam : SliceIpam
deriving DecidableEq, Repr

/-- Slice status: `SliceConfig` is a pointer in Go, hence `Option`. -/
structure SliceStatus where
  sliceConfig : Option SliceConfigStatus
  dnsIP : String
deriving DecidableEq, Repr

/-- The parent Slice custom resource (the fields this fragment reads). -/
structure Slice where
  name : String
  nspace : String
  status : SliceStatus
deriving DecidableEq, Repr

def nsmDataplaneVpp : String := "vpp"

def nsmDataplaneKernel : String := "kernel"

def nsmVppDataplaneCfgStr : String := "nsm-vpp-plane"

def nsmKernelDataplaneCfgStr : String := "nsm-kernel-plane"

def sliceRouterDeploymentNamePrefix : String := "vl3-slice-router-"

/-- Labels shared by the router Deployment (selector and pod template) and the
router Service selector. -/
def labelsForSliceRouterDeployment (name : String) : List (String × String) :=
  [("networkservicemesh.io/app", "vl3-nse-" ++ name),
   ("networkservicemesh.io/impl", "vl3-service-" ++ name),
   ("avesha.io/pod-type", "router"),
   ("avesha.io/slice", name)]

/-- Sidecar image and pull policy, defaulting the policy to Always. -/
def getSliceRouterSidecarImageAndPullPolicy (cfg : Config) : String × String :=
  (cfg.sliceRouterSidecarImage,
   if 0 < cfg.sliceRouterSidecarImagePullPolicy.length then
     cfg.sliceRouterSidecarImagePullPolicy
   else "Always")

/-- Split a character list at every occurrence of `sep` (keeping empty
pieces), as Go's `strings.Split` does for a one-character separator. -/
def splitChars (sep : Char) : List Char → List (List Char)
  | [] => [[]]
  | c :: cs =>
    let r := splitChars sep cs
    if c = sep then [] :: r
    else
      match r with
      | h :: t => (c :: h) :: t
      | [] => [[c]]

/-- Go's `strings.Split(s, ".")`: the dot-separated components of `s`
(`[""]` for the empty string), as a structurally recursive function. -/
def splitOnDot (s : String) : List String :=
  (splitChars '.' s.data).map (fun l => String.mk l)

/-- `getClusterPrefixPool`: splits the subnet on dots and overwrites components
2 and 3.  In Go the indexing panics when the subnet has fewer than four
components; `none` models that panic. -/
def getClusterPrefixPool (sliceSubnet : String) (ipamOctet : String) : Option String :=
  let octetList := splitOnDot sliceSubnet
  if 3 < octetList.length then
    some (String.intercalate "." ((octetList.set 2 ipamOctet).set 3 "0/24"))
  else none

/-- A container environment variable. -/
structure EnvVar where
  name : String
  value : String
deriving DecidableEq, Repr

/-- A container volume mount. -/
structure VolumeMount where
  name : String
  mountPath : String
  subPath : String
deriving DecidableEq, Repr

/-- A pod container (the fields this fragment sets). -/
structure Container where
  image : String
  name : String
  imagePullPolicy : String
  env : List EnvVar
  volumeMounts : List VolumeMount
  privileged : Bool
deriving DecidableEq, Repr

/-- A pod volume source: EmptyDir or a ConfigMap reference. -/
inductive VolumeSource where
  | emptyDir
  | configMap (name : String)
deriving DecidableEq, Repr

/-- A pod volume. -/
structure Volume where
  name : String
  source : VolumeSource
deriving DecidableEq, Repr

/-- `getContainerSpecForSliceRouter`: the vL3 router container.  Dereferences
`Status.SliceConfig` and calls `getClusterPrefixPool`, so it can panic
(`none`). -/
def getContainerSpecForSliceRouter (cfg : Config) (s : Slice)
    (ipamOctet : String) (dataplane : String) : Option Container :=
  match s.status.sliceConfig with
  | none => none
  | some sc =>
    match getClusterPrefixPool sc.sliceSubnet ipamOctet with
    | none => none
    | some clusterPrefixPool =>
      let vl3Image :=
        if cfg.vl3RouterImage.length ≠ 0 then cfg.vl3RouterImage
        else "nexus.dev.aveshalabs.io/avesha/vl3_ucnf-nse:1.0.0"
      let vl3ImagePullPolicy :=
        if cfg.vl3RouterPullPolicy.length ≠ 0 then cfg.vl3RouterPullPolicy
        else "Always"
      let base : Container :=
        { image := vl3Image
          name := "vl3-nse"
          imagePullPolicy := vl3ImagePullPolicy
          env :=
            [⟨"DATAPLANE", dataplane⟩,
             ⟨"ENDPOINT_NETWORK_SERVICE", "vl3-service-" ++ s.name⟩,
             ⟨"ENDPOINT_LABELS", "app=" ++ "vl3-nse-" ++ s.name⟩,
             ⟨"TRACER_ENABLED", "true"⟩,
             ⟨"NSREGISTRY_ADDR", "nsmgr." ++ cfg.controlPlaneNamespace⟩,
             ⟨"NSREGISTRY_PORT", "5000"⟩]
          volumeMounts := []
          privileged := true }
      let withKernel :=
        if dataplane = nsmDataplaneKernel then
          { base with
              env := base.env ++
                [⟨"IP_ADDRESS", clusterPrefixPool⟩,
                 ⟨"DST_ROUTES", sc.sliceSubnet⟩,
                 ⟨"DNS_NAMESERVERS", s.status.dnsIP⟩,
                 ⟨"DNS_DOMAINS", "slice.local"⟩] }
        else base
      let withVpp :=
        if dataplane = nsmDataplaneVpp then
          { withKernel with
              env := withKernel.env ++ [⟨"NSE_IPAM_UNIQUE_OCTET", ipamOctet⟩]
              volumeMounts := withKernel.volumeMounts ++
                [⟨"universal-cnf-config-volume", "/etc/universal-cnf/config.yaml",
                  "config.yaml"⟩] }
        else withKernel
      some withVpp

/-- `getContainerSpecForSliceRouterSidecar`: the sidecar container. -/
def getContainerSpecForSliceRouterSidecar (cfg : Config) (dataplane : String) :
    Container :=
  let p := getSliceRouterSidecarImageAndPullPolicy cfg
  { image := p.1
    name := "avesha-vl3-sidecar"
    imagePullPolicy := p.2
    env := [⟨"DATAPLANE", dataplane⟩, ⟨"POD_TYPE", "SLICEROUTER_POD"⟩]
    volumeMounts := [⟨"shared-volume", "/config", ""⟩]
    privileged := true }

/-- `getVolumeSpecForSliceRouter`: shared EmptyDir volume, plus the
universal-cnf ConfigMap volume in VPP mode. -/
def getVolumeSpecForSliceRouter (s : Slice) (dataplane : String) : List Volume :=
  let sliceRouterVolumeSpec : List Volume := [⟨"shared-volume", .emptyDir⟩]
  if dataplane = nsmDataplaneVpp then
    sliceRouterVolumeSpec ++
      [⟨"universal-cnf-config-volume", .configMap ("ucnf-vl3-service-" ++ s.name)⟩]
  else sliceRouterVolumeSpec

/-- A Deployment (the fields this fragment sets). -/
structure Deployment where
  name : String
  nspace : String
  replicas : Int
  selectorMatchLabels : List (String × String)
  templateLabels : List (String × String)
  serviceAccountName : String
  containers : List Container
  volumes : List Volume
  imagePullSecrets : List String
  ownerRef : Option String
deriving DecidableEq, Repr

/-- `deploymentForSliceRouter`: the router Deployment spec.  `none` models the
panic propagated from the container builder.  `SetControllerReference` (whose
error Go ignores here) is modelled by setting `ownerRef`. -/
def deploymentForSliceRouter (cfg : Config) (s : Slice)
    (ipamOctet : String) (dataplane : String) : Option Deployment :=
  match getContainerSpecForSliceRouter cfg s ipamOctet dataplane with
  | none => none
  | some routerContainer =>
    let ls := labelsForSliceRouterDeployment s.name
    some
      { name := sliceRouterDeploymentNamePrefix ++ s.name
        nspace := s.nspace
        replicas := 1
        selectorMatchLabels := ls
        templateLabels := ls
        serviceAccountName := "slice-router"
        containers := [routerContainer,
                       getContainerSpecForSliceRouterSidecar cfg dataplane]
        volumes := getVolumeSpecForSliceRouter s dataplane
        imagePullSecrets :=
          if cfg.imagePullSecretName.length ≠ 0 then [cfg.imagePullSecretName]
          else []
        ownerRef := some s.name }

/-- A Service port. -/
structure ServicePort where
  port : Int
  name : String
deriving DecidableEq, Repr

/-- A Service (the fields this fragment sets). -/
structure Service where
  name : String
  nspace : String
  selector : List (String × String)
  ports : List ServicePort
  ownerRef : Option String
deriving DecidableEq, Repr

/-- Cluster state visible to this fragment: object keys are
(namespace, name); `vppPods` are the pods labeled `app=nsm-vpp-plane`. -/
structure Cluster where
  deployments : List (String × String)
  services : List (String × String)
  networkServices : List (String × String)
  vppPods : List (String × String)
deriving DecidableEq, Repr

/-- Injected non-NotFound client errors, one slot per call site
(`none` = that call succeeds at the client level). -/
structure Faults where
  getDepErr : Option String
  getSvcErr : Option String
  getNseErr : Option String
  listPodsErr : Option String
  createDepErr : Option String
  createSvcErr : Option String
  deleteNseErr : Option String
  setOwnerSvcErr : Option String
deriving DecidableEq, Repr

/-- The all-clear fault record: every client call succeeds. -/
def noFaults : Faults := ⟨none, none, none, none, none, none, none, none⟩

/-- Outcome of a client `Get`. -/
inductive GetOutcome where
  | found
  | notFound
  | err (msg : String)
deriving DecidableEq, Repr

/-- A recorded client operation.  Write operations carry whether the API call
succeeded. -/
inductive Op where
  | getDep (nspace : String) (name : String)
  | listVppPods (nspace : String)
  | createDep (d : Deployment) (ok : Bool)
  | getSvc (nspace : String) (name : String)
  | createSvc (sv : Service) (ok : Bool)
  | getNse (nspace : String) (name : String)
  | deleteNse (nspace : String) (name : String) (ok : Bool)
  | recordEvent (msg : String)
deriving DecidableEq, Repr

/-- Whether an operation writes cluster state (Create or Delete call). -/
def Op.isWrite : Op → Bool
  | .createDep _ _ => true
  | .createSvc _ _ => true
  | .deleteNse _ _ _ => true
  | _ => false

/-- The (namespace, name) key a recorded operation addresses when it touches
a Deployment (Get or Create); `none` for any other operation. -/
def Op.deploymentKey : Op → Option (String × String)
  | .getDep nspace nm => some (nspace, nm)
  | .createDep d _ => some (d.nspace, d.name)
  | _ => none

/-- The (namespace, name) key a recorded operation addresses when it touches
a Service (Get or Create); `none` for any other operation. -/
def Op.serviceKey : Op → Option (String × String)
  | .getSvc nspace nm => some (nspace, nm)
  | .createSvc sv _ => some (sv.nspace, sv.name)
  | _ => none

/-- The (namespace, name) key a recorded operation addresses when it touches
a NetworkService (Get or Delete); `none` for any other operation. -/
def Op.nseKey : Op → Option (String × String)
  | .getNse nspace nm => some (nspace, nm)
  | .deleteNse nspace nm _ => some (nspace, nm)
  | _ => none

/-- Effect of one recorded operation on the cluster: only successful writes
change anything. -/
def applyOp (cl : Cluster) : Op → Cluster
  | .createDep d true => { cl with deployments := (d.nspace, d.name) :: cl.deployments }
  | .createSvc sv true => { cl with services := (sv.nspace, sv.name) :: cl.services }
  | .deleteNse nspace nm true =>
      { cl with networkServices :=
          cl.networkServices.filter (fun p => p ≠ (nspace, nm)) }
  | _ => cl

/-- Effect of a trace on the cluster. -/
def applyOps (cl : Cluster) (ops : List Op) : Cluster :=
  ops.foldl applyOp cl

/-- Client `Get` of a Deployment. -/
def getDeployment (cl : Cluster) (f : Faults) (nspace nm : String) : GetOutcome :=
  match f.getDepErr with
  | some m => .err m
  | none => if cl.deployments.contains (nspace, nm) then .found else .notFound

/-- Client `Get` of a Service. -/
def getService (cl : Cluster) (f : Faults) (nspace nm : String) : GetOutcome :=
  match f.getSvcErr with
  | some m => .err m
  | none => if cl.services.contains (nspace, nm) then .found else .notFound

/-- Client `Get` of a NetworkService. -/
def getNetworkService (cl : Cluster) (f : Faults) (nspace nm : String) : GetOutcome :=
  match f.getNseErr with
  | some m => .err m
  | none => if cl.networkServices.contains (nspace, nm) then .found else .notFound

/-- `getNsmDataplaneMode`: lists pods labeled `app=nsm-vpp-plane` in the
slice's namespace; a non-empty list means VPP, an empty one kernel.  A List
failure is returned as an error.  Also returns the trace. -/
def getNsmDataplaneMode (cl : Cluster) (f : Faults) (slice : Slice) :
    Except String String × List Op :=
  match f.listPodsErr with
  | some m => (.error m, [.listVppPods slice.nspace])
  | none =>
    if 0 < (cl.vppPods.filter (fun p => p.1 = slice.nspace)).length then
      (.ok nsmDataplaneVpp, [.listVppPods slice.nspace])
    else
      (.ok nsmDataplaneKernel, [.listVppPods slice.nspace])

/-- Either a Go panic or a normal value. -/
inductive PanicOr (α : Type) where
  | panic
  | ret (a : α)
deriving DecidableEq, Repr

/-- `deploySliceRouter`: detect the dataplane, build the Deployment and Create
it.  Returns the Go error (`some msg`) or success (`none`), wrapped in
`PanicOr` for the paths on which Go would crash, plus the trace. -/
def deploySliceRouter (cfg : Config) (cl : Cluster) (f : Faults) (slice : Slice) :
    PanicOr (Option String) × List Op :=
  match getNsmDataplaneMode cl f slice with
  | (.error e, t1) => (.ret (some e), t1)
  | (.ok dataplane, t1) =>
    if dataplane ≠ nsmDataplaneKernel ∧ dataplane ≠ nsmDataplaneVpp then
      (.ret (some ("invalid dataplane: " ++ dataplane)), t1)
    else
      match slice.status.sliceConfig with
      | none => (.panic, t1)
      | some sc =>
        let ipamOctet := toString sc.sliceIpam.ipamClusterOctet
        match deploymentForSliceRouter cfg slice ipamOctet dataplane with
        | none => (.panic, t1)
        | some dep =>
          match f.createDepErr with
          | some e =>
            (.ret (some e),
             t1 ++ [.createDep dep false, .recordEvent "Error creating slice router"])
          | none => (.ret none, t1 ++ [.createDep dep true])

/-- `deploySliceRouterSvc`: build the router Service, set the owner reference,
Create it.  Returns the Go error or success, plus the trace. -/
def deploySliceRouterSvc (cfg : Config) (f : Faults) (slice : Slice) :
    Option String × List Op :=
  let svc : Service :=
    { name := sliceRouterDeploymentNamePrefix ++ slice.name
      nspace := cfg.controlPlaneNamespace
      selector := labelsForSliceRouterDeployment slice.name
      ports := [⟨5000, "grpc"⟩]
      ownerRef := none }
  match f.setOwnerSvcErr with
  | some e => (some e, [])
  | none =>
    let svc := { svc with ownerRef := some slice.name }
    match f.createSvcErr with
    | some e =>
      (some e,
       [.createSvc svc false, .recordEvent "Error creating service for slice router"])
    | none => (none, [.createSvc svc true])

/-- `ctrl.Result`, reduced to the RequeueAfter delay in seconds. -/
structure CtrlResult where
  requeueAfterSeconds : Nat
deriving DecidableEq, Repr

/-- The value triple `(ctrl.Result, error, bool)` returned by
`ReconcileSliceRouter`. -/
structure ReconcileRet where
  result : CtrlResult
  err : Option String
  changed : Bool
deriving DecidableEq, Repr

/-- The guard `slice.Status.SliceConfig == nil || SliceSubnet == ""`. -/
def sliceSubnetNotSet (slice : Slice) : Bool :=
  match slice.status.sliceConfig with
  | none => true
  | some sc => sc.sliceSubnet = ""

/-- `ReconcileSliceRouter`: get-or-create of the router Deployment (in the
slice's namespace) then of the router Service (in the control-plane
namespace), with the wait-for-subnet guard.  Returns the result triple
(wrapped in `PanicOr`) and the trace of client operations. -/
def ReconcileSliceRouter (cfg : Config) (cl : Cluster) (f : Faults) (slice : Slice) :
    PanicOr ReconcileRet × List Op :=
  let depName := sliceRouterDeploymentNamePrefix ++ slice.name
  let t0 : List Op := [.getDep slice.nspace depName]
  match getDeployment cl f slice.nspace depName with
  | .err e => (.ret ⟨⟨0⟩, some e, true⟩, t0)
  | .notFound =>
    if sliceSubnetNotSet slice then
      (.ret ⟨⟨10⟩, none, true⟩, t0)
    else
      match deploySliceRouter cfg cl f slice with
      | (.panic, t1) => (.panic, t0 ++ t1)
      | (.ret (some e), t1) => (.ret ⟨⟨0⟩, some e, true⟩, t0 ++ t1)
      | (.ret none, t1) => (.ret ⟨⟨10⟩, none, true⟩, t0 ++ t1)
  | .found =>
    let t2 : List Op := t0 ++ [.getSvc cfg.controlPlaneNamespace depName]
    match getService cl f cfg.controlPlaneNamespace depName with
    | .err e => (.ret ⟨⟨0⟩, some e, true⟩, t2)
    | .notFound =>
      match slice.status.sliceConfig with
      | none => (.ret ⟨⟨10⟩, none, true⟩, t2)
      | some _ =>
        match deploySliceRouterSvc cfg f slice with
        | (some e, t3) => (.ret ⟨⟨0⟩, some e, true⟩, t2 ++ t3)
        | (none, t3) => (.ret ⟨⟨10⟩, none, true⟩, t2 ++ t3)
    | .found => (.ret ⟨⟨0⟩, none, false⟩, t2)

/-- `cleanupSliceRouter`: delete the `vl3-service-<name>` NetworkService in
the control-plane namespace; NotFound is success. -/
def cleanupSliceRouter (cfg : Config) (cl : Cluster) (f : Faults)
    (sliceName : String) : Option String × List Op :=
  let nseName := "vl3-service-" ++ sliceName
  let t0 : List Op := [.getNse cfg.controlPlaneNamespace nseName]
  match getNetworkService cl f cfg.controlPlaneNamespace nseName with
  | .err e => (some e, t0)
  | .notFound => (none, t0)
  | .found =>
    match f.deleteNseErr with
    | some e => (some e, t0 ++ [.deleteNse cfg.controlPlaneNamespace nseName false])
    | none => (none, t0 ++ [.deleteNse cfg.controlPlaneNamespace nseName true])

/-! ## Concrete instances used by witnesses and counterexamples -/

/-- A concrete configuration for witnesses. -/
def cfg0 : Config :=
  ⟨"sidecar-img", "IfNotPresent", "router-img", "Always", "pull-secret",
   "kubeslice-system"⟩

/-- A concrete slice with a well-formed subnet. -/
def slice0 : Slice := ⟨"red", "ns1", ⟨some ⟨"10.1.0.0/16", ⟨5⟩⟩, "10.0.0.53"⟩⟩

/-- A concrete slice whose status has no SliceConfig yet. -/
def sliceNoCfg : Slice := ⟨"red", "ns1", ⟨none, ""⟩⟩

/-- The empty cluster. -/
def emptyCluster : Cluster := ⟨[], [], [], []⟩

/-- A slice whose status subnet is set but has only three dot components. -/
def sliceBadSubnet : Slice := ⟨"red", "ns1", ⟨some ⟨"10.1.0", ⟨1⟩⟩, ""⟩⟩

/-- A cluster holding the router Deployment and Service for slice "red" of
namespace "ns1" under `cfg0`. -/
def fullCluster : Cluster :=
  ⟨[("ns1", "vl3-slice-router-red")], [("kubeslice-system", "vl3-slice-router-red")],
   [], []⟩

/-! ## Helper lemmas -/

/-- Setting components 2 and 3 of a list of length at least 4 is the same as
keeping the first two and last `length - 4` components around the new pair. -/
theorem set23_eq_take_drop {α : Type} (l : List α) (a b : α) (h : 3 < l.length) :
    (l.set 2 a).set 3 b = l.take 2 ++ [a, b] ++ l.drop 4 := by
  obtain ⟨x, y, z, w, rest, rfl⟩ :
      ∃ x y z w rest, l = x :: y :: z :: w :: rest := by
    match l with
    | [] => simp at h
    | [x] => simp at h
    | [x, y] => simp at h
    | [x, y, z] => simp at h
    | x :: y :: z :: w :: rest => exact ⟨x, y, z, w, rest, rfl⟩
  simp [List.set]

/-- A Deployment `Get` with no injected fault and the key absent is NotFound. -/
theorem getDeployment_notFound (cl : Cluster) (f : Faults) (nspace nm : String)
    (hf : f.getDepErr = none) (habs : cl.deployments.contains (nspace, nm) = false) :
    getDeployment cl f nspace nm = .notFound := by
  simp [getDeployment, hf]
  simpa using habs

/-- A Deployment `Get` with no injected fault and the key present is Found. -/
theorem getDeployment_found (cl : Cluster) (f : Faults) (nspace nm : String)
    (hf : f.getDepErr = none) (hmem : cl.deployments.contains (nspace, nm) = true) :
    getDeployment cl f nspace nm = .found := by
  simp [getDeployment, hf]
  simpa using hmem

/-- A Service `Get` with no injected fault and the key present is Found. -/
theorem getService_found (cl : Cluster) (f : Faults) (nspace nm : String)
    (hf : f.getSvcErr = none) (hmem : cl.services.contains (nspace, nm) = true) :
    getService cl f nspace nm = .found := by
  simp [getService, hf]
  simpa using hmem

/-- A Service `Get` with no injected fault and the key absent is NotFound. -/
theorem getService_notFound (cl : Cluster) (f : Faults) (nspace nm : String)
    (hf : f.getSvcErr = none) (habs : cl.services.contains (nspace, nm) = false) :
    getService cl f nspace nm = .notFound := by
  simp [getService, hf]
  simpa using habs

/-- With a successful List and at least one labeled pod in the slice's
namespace, dataplane detection yields VPP. -/
theorem getNsmDataplaneMode_vpp (cl : Cluster) (f : Faults) (slice : Slice)
    (hf : f.listPodsErr = none)
    (hp : 0 < (cl.vppPods.filter (fun p => p.1 = slice.nspace)).length) :
    getNsmDataplaneMode cl f slice =
      (Except.ok nsmDataplaneVpp, [.listVppPods slice.nspace]) := by
  unfold getNsmDataplaneMode
  rw [hf, if_pos hp]

/-- With a successful List and no labeled pod in the slice's namespace,
dataplane detection yields kernel. -/
theorem getNsmDataplaneMode_kernel (cl : Cluster) (f : Faults) (slice : Slice)
    (hf : f.listPodsErr = none)
    (h0 : (cl.vppPods.filter (fun p => p.1 = slice.nspace)).length = 0) :
    getNsmDataplaneMode cl f slice =
      (Except.ok nsmDataplaneKernel, [.listVppPods slice.nspace]) := by
  unfold getNsmDataplaneMode
  rw [hf, if_neg (by omega)]

/-- The Go builder never returns nil once SliceConfig is set and the subnet
splits into at least four components: the container spec exists. -/
theorem getContainerSpecForSliceRouter_isSome (cfg : Config) (s : Slice)
    (sc : SliceConfigStatus) (ipamOctet dataplane : String)
    (hcfg : s.status.sliceConfig = some sc)
    (hwf : 3 < (splitOnDot sc.sliceSubnet).length) :
    ∃ c, getContainerSpecForSliceRouter cfg s ipamOctet dataplane = some c := by
  simp [getContainerSpecForSliceRouter, hcfg, getClusterPrefixPool, hwf]

/-- The fixed fields of any Deployment the builder returns: derived name, the
slice's namespace, the shared label set, and the owner reference. -/
theorem deploymentForSliceRouter_fields (cfg : Config) (s : Slice)
    (ipamOctet dataplane : String) (dep : Deployment)
    (h : deploymentForSliceRouter cfg s ipamOctet dataplane = some dep) :
    dep.name = sliceRouterDeploymentNamePrefix ++ s.name ∧
    dep.nspace = s.nspace ∧
    dep.selectorMatchLabels = labelsForSliceRouterDeployment s.name ∧
    dep.templateLabels = labelsForSliceRouterDeployment s.name ∧
    dep.ownerRef = some s.name := by
  unfold deploymentForSliceRouter at h
  cases hc : getContainerSpecForSliceRouter cfg s ipamOctet dataplane with
  | none => rw [hc] at h; cases h
  | some c =>
    rw [hc] at h
    cases h
    exact ⟨rfl, rfl, rfl, rfl, rfl⟩

/-- When SliceConfig is set, the subnet is well formed and no fault is
injected on List or Create, `deploySliceRouter` succeeds and its trace is a
pod List followed by one successful Deployment Create with the derived key. -/
theorem deploySliceRouter_ok (cfg : Config) (cl : Cluster) (f : Faults)
    (slice : Slice) (sc : SliceConfigStatus)
    (hfl : f.listPodsErr = none) (hfc : f.createDepErr = none)
    (hcfg : slice.status.sliceConfig = some sc)
    (hwf : 3 < (splitOnDot sc.sliceSubnet).length) :
    ∃ dep, deploySliceRouter cfg cl f slice =
      (.ret none, [.listVppPods slice.nspace, .createDep dep true]) ∧
      dep.name = sliceRouterDeploymentNamePrefix ++ slice.name ∧
      dep.nspace = slice.nspace := by
  have hvalid : ∀ dp : String, dp = nsmDataplaneKernel ∨ dp = nsmDataplaneVpp →
      ¬(dp ≠ nsmDataplaneKernel ∧ dp ≠ nsmDataplaneVpp) := by
    rintro dp (rfl | rfl) ⟨h1, h2⟩
    · exact h1 rfl
    · exact h2 rfl
  have main : ∀ dp : String, dp = nsmDataplaneKernel ∨ dp = nsmDataplaneVpp →
      getNsmDataplaneMode cl f slice = (Except.ok dp, [.listVppPods slice.nspace]) →
      ∃ dep, deploySliceRouter cfg cl f slice =
        (.ret none, [.listVppPods slice.nspace, .createDep dep true]) ∧
        dep.name = sliceRouterDeploymentNamePrefix ++ slice.name ∧
        dep.nspace = slice.nspace := by
    intro dp hdp hmode
    obtain ⟨c, hc⟩ := getContainerSpecForSliceRouter_isSome cfg slice sc
      (toString sc.sliceIpam.ipamClusterOctet) dp hcfg hwf
    have hdep : deploymentForSliceRouter cfg slice
        (toString sc.sliceIpam.ipamClusterOctet) dp ≠ none := by
      simp [deploymentForSliceRouter, hc]
    obtain ⟨dep, hdepEq⟩ := Option.ne_none_iff_exists'.1 hdep
    obtain ⟨hnm, hns, _, _, _⟩ :=
      deploymentForSliceRouter_fields cfg slice _ dp dep hdepEq
    refine ⟨dep, ?_, hnm, hns⟩
    rw [deploySliceRouter.eq_def, hmode]
    simp only [hvalid dp hdp, if_false, hcfg, hdepEq, hfc]
    rfl
  by_cases hp : 0 < (cl.vppPods.filter (fun p => p.1 = slice.nspace)).length
  · exact main nsmDataplaneVpp (Or.inr rfl) (getNsmDataplaneMode_vpp cl f slice hfl hp)
  · exact main nsmDataplaneKernel (Or.inl rfl)
      (getNsmDataplaneMode_kernel cl f slice hfl (Nat.eq_zero_of_not_pos hp))

/-- When SliceConfig is set, the subnet is well formed, the List succeeds and
a fault is injected on the Deployment Create, `deploySliceRouter` returns that
error; the trace shows the failed Create and the warning event. -/
theorem deploySliceRouter_createErr (cfg : Config) (cl : Cluster) (f : Faults)
    (slice : Slice) (sc : SliceConfigStatus) (e : String)
    (hfl : f.listPodsErr = none) (hfc : f.createDepErr = some e)
    (hcfg : slice.status.sliceConfig = some sc)
    (hwf : 3 < (splitOnDot sc.sliceSubnet).length) :
    ∃ dep, deploySliceRouter cfg cl f slice =
      (.ret (some e),
       [.listVppPods slice.nspace, .createDep dep false,
        .recordEvent "Error creating slice router"]) := by
  have hvalid : ∀ dp : String, dp = nsmDataplaneKernel ∨ dp = nsmDataplaneVpp →
      ¬(dp ≠ nsmDataplaneKernel ∧ dp ≠ nsmDataplaneVpp) := by
    rintro dp (rfl | rfl) ⟨h1, h2⟩
    · exact h1 rfl
    · exact h2 rfl
  have main : ∀ dp : String, dp = nsmDataplaneKernel ∨ dp = nsmDataplaneVpp →
      getNsmDataplaneMode cl f slice = (Except.ok dp, [.listVppPods slice.nspace]) →
      ∃ dep, deploySliceRouter cfg cl f slice =
        (.ret (some e),
         [.listVppPods slice.nspace, .createDep dep false,
          .recordEvent "Error creating slice router"]) := by
    intro dp hdp hmode
    obtain ⟨c, hc⟩ := getContainerSpecForSliceRouter_isSome cfg slice sc
      (toString sc.sliceIpam.ipamClusterOctet) dp hcfg hwf
    have hdep : deploymentForSliceRouter cfg slice
        (toString sc.sliceIpam.ipamClusterOctet) dp ≠ none := by
      simp [deploymentForSliceRouter, hc]
    obtain ⟨dep, hdepEq⟩ := Option.ne_none_iff_exists'.1 hdep
    refine ⟨dep, ?_⟩
    rw [deploySliceRouter.eq_def, hmode]
    simp only [hvalid dp hdp, if_false, hcfg, hdepEq, hfc]
    rfl
  by_cases hp : 0 < (cl.vppPods.filter (fun p => p.1 = slice.nspace)).length
  · exact main nsmDataplaneVpp (Or.inr rfl) (getNsmDataplaneMode_vpp cl f slice hfl hp)
  · exact main nsmDataplaneKernel (Or.inl rfl)
      (getNsmDataplaneMode_kernel cl f slice hfl (Nat.eq_zero_of_not_pos hp))

/-! ## Claim theorems -/

/-- C9 counterexample: on a subnet with five dot-separated components the
result keeps the fifth component, so it is not the join of just the first two
components, the ipamOctet and "0/24". -/
theorem C9_getClusterPrefixPool_five_components :
    getClusterPrefixPool "1.2.3.4.5" "9" = some "1.2.9.0/24.5" ∧
    3 < (splitOnDot "1.2.3.4.5").length ∧
    "1.2.9.0/24.5" ≠ "1.2.9.0/24" := by
  refine ⟨by decide, by decide, by decide⟩

/-- C9 (amended): getClusterPrefixPool is partial: for a subnet with at least
four dot-separated components it returns the first two components, then the
ipamOctet, then "0/24", then any remaining components from the fifth on,
joined with dots; for a subnet with at most three components (fewer than
three dots, including the empty string) the component indexing is out of
range (a panic), so that input must be excluded by precondition. -/
theorem C9_getClusterPrefixPool_domain (s o : String) :
    (3 < (splitOnDot s).length →
      getClusterPrefixPool s o =
        some (String.intercalate "."
          ((splitOnDot s).take 2 ++ [o, "0/24"] ++ (splitOnDot s).drop 4))) ∧
    ((splitOnDot s).length ≤ 3 → getClusterPrefixPool s o = none) := by
  constructor
  · intro h
    rw [getClusterPrefixPool.eq_def]
    simp only [h, if_true]
    rw [set23_eq_take_drop _ _ _ h]
  · intro h
    simp [getClusterPrefixPool, Nat.not_lt.2 h]

/-- C9 witness: the amended theorem evaluated on a four-component subnet and
on the empty string. -/
theorem C9_getClusterPrefixPool_domain_witness :
    getClusterPrefixPool "10.1.0.0/16" "9" =
      some (String.intercalate "."
        ((splitOnDot "10.1.0.0/16").take 2 ++ ["9", "0/24"] ++
          (splitOnDot "10.1.0.0/16").drop 4)) ∧
    getClusterPrefixPool "" "9" = none :=
  ⟨(C9_getClusterPrefixPool_domain "10.1.0.0/16" "9").1 (by decide),
   (C9_getClusterPrefixPool_domain "" "9").2 (by decide)⟩

/-- C2: getNsmDataplaneMode returns the VPP mode string exactly when the pod
list for label app=nsm-vpp-plane in the slice's namespace contains at least
one pod, and the kernel mode string when that list is empty (given the List
call itself succeeds). -/
theorem C2_getNsmDataplaneMode_selects (cl : Cluster) (f : Faults) (slice : Slice)
    (hf : f.listPodsErr = none) :
    ((getNsmDataplaneMode cl f slice).1 = Except.ok nsmDataplaneVpp ↔
      0 < (cl.vppPods.filter (fun p => p.1 = slice.nspace)).length) ∧
    ((cl.vppPods.filter (fun p => p.1 = slice.nspace)).length = 0 →
      (getNsmDataplaneMode cl f slice).1 = Except.ok nsmDataplaneKernel) := by
  refine ⟨⟨fun h => ?_, fun hp => ?_⟩, fun h0 => ?_⟩
  · by_contra hc
    have h0 : (cl.vppPods.filter (fun p => p.1 = slice.nspace)).length = 0 :=
      Nat.eq_zero_of_not_pos hc
    rw [getNsmDataplaneMode_kernel cl f slice hf h0] at h
    exact absurd (Except.ok.inj h) (by decide)
  · rw [getNsmDataplaneMode_vpp cl f slice hf hp]
  · rw [getNsmDataplaneMode_kernel cl f slice hf h0]

/-- C2 witness: one labeled pod in the slice's namespace gives VPP; an empty
cluster gives kernel.  Both read off the theorem at concrete inputs. -/
theorem C2_getNsmDataplaneMode_selects_witness :
    (getNsmDataplaneMode ⟨[], [], [], [("ns1", "vpp-pod")]⟩ noFaults
        ⟨"red", "ns1", ⟨none, ""⟩⟩).1 = Except.ok nsmDataplaneVpp ∧
    (getNsmDataplaneMode emptyCluster noFaults
        ⟨"red", "ns1", ⟨none, ""⟩⟩).1 = Except.ok nsmDataplaneKernel :=
  ⟨(C2_getNsmDataplaneMode_selects ⟨[], [], [], [("ns1", "vpp-pod")]⟩ noFaults
      ⟨"red", "ns1", ⟨none, ""⟩⟩ rfl).1.2 (by decide),
   (C2_getNsmDataplaneMode_selects emptyCluster noFaults
      ⟨"red", "ns1", ⟨none, ""⟩⟩ rfl).2 (by decide)⟩

/-- C5: cleanupSliceRouter on a slice for which no network-service object
with the derived name "vl3-service-" + slice name exists returns nil; the
not-found lookup is treated as already clean and no Delete is issued. -/
theorem C5_cleanup_notFound_is_success (cfg : Config) (cl : Cluster) (f : Faults)
    (sliceName : String)
    (hf : f.getNseErr = none)
    (habs : cl.networkServices.contains
      (cfg.controlPlaneNamespace, "vl3-service-" ++ sliceName) = false) :
    cleanupSliceRouter cfg cl f sliceName =
      (none, [.getNse cfg.controlPlaneNamespace ("vl3-service-" ++ sliceName)]) ∧
    (cleanupSliceRouter cfg cl f sliceName).2.filter Op.isWrite = [] := by
  have hget : getNetworkService cl f cfg.controlPlaneNamespace
      ("vl3-service-" ++ sliceName) = .notFound := by
    simp [getNetworkService, hf]
    simpa using habs
  have hmain : cleanupSliceRouter cfg cl f sliceName =
      (none, [.getNse cfg.controlPlaneNamespace ("vl3-service-" ++ sliceName)]) := by
    simp [cleanupSliceRouter, hget]
  exact ⟨hmain, by rw [hmain]; rfl⟩

/-- C5 witness: cleanup of slice "red" against the empty cluster. -/
theorem C5_cleanup_notFound_is_success_witness :
    cleanupSliceRouter cfg0 emptyCluster noFaults "red" =
      (none, [.getNse cfg0.controlPlaneNamespace ("vl3-service-" ++ "red")]) ∧
    (cleanupSliceRouter cfg0 emptyCluster noFaults "red").2.filter Op.isWrite = [] :=
  C5_cleanup_notFound_is_success cfg0 emptyCluster noFaults "red" rfl rfl

/-- C1: for every slice whose router Deployment is absent and whose status
subnet is not yet populated (SliceConfig nil or SliceSubnet empty),
ReconcileSliceRouter performs no Create call and returns a requeue-after
result with the fixed 10-second delay, a nil error, and changed=true. -/
theorem C1_wait_when_subnet_unset (cfg : Config) (cl : Cluster) (f : Faults)
    (slice : Slice)
    (hf : f.getDepErr = none)
    (habs : cl.deployments.contains
      (slice.nspace, sliceRouterDeploymentNamePrefix ++ slice.name) = false)
    (hsub : sliceSubnetNotSet slice = true) :
    ReconcileSliceRouter cfg cl f slice =
      (.ret ⟨⟨10⟩, none, true⟩,
       [.getDep slice.nspace (sliceRouterDeploymentNamePrefix ++ slice.name)]) ∧
    (ReconcileSliceRouter cfg cl f slice).2.filter Op.isWrite = [] := by
  have hget := getDeployment_notFound cl f slice.nspace
    (sliceRouterDeploymentNamePrefix ++ slice.name) hf habs
  have hmain : ReconcileSliceRouter cfg cl f slice =
      (.ret ⟨⟨10⟩, none, true⟩,
       [.getDep slice.nspace (sliceRouterDeploymentNamePrefix ++ slice.name)]) := by
    simp [ReconcileSliceRouter, hget, hsub]
  exact ⟨hmain, by rw [hmain]; rfl⟩

/-- C1 witness: a slice with no SliceConfig against the empty cluster. -/
theorem C1_wait_when_subnet_unset_witness :
    ReconcileSliceRouter cfg0 emptyCluster noFaults sliceNoCfg =
      (.ret ⟨⟨10⟩, none, true⟩,
       [.getDep sliceNoCfg.nspace
          (sliceRouterDeploymentNamePrefix ++ sliceNoCfg.name)]) ∧
    (ReconcileSliceRouter cfg0 emptyCluster noFaults sliceNoCfg).2.filter
      Op.isWrite = [] :=
  C1_wait_when_subnet_unset cfg0 emptyCluster noFaults sliceNoCfg rfl rfl rfl

/-- C3: for every slice for which both the router Deployment (in the slice's
namespace) and the router Service (under the derived name, in the
control-plane namespace) already exist, ReconcileSliceRouter performs zero
write operations, leaves cluster state unchanged, and returns an empty
result, nil error, and changed=false. -/
theorem C3_provisioned_slice_is_noop (cfg : Config) (cl : Cluster) (f : Faults)
    (slice : Slice)
    (hfd : f.getDepErr = none) (hfs : f.getSvcErr = none)
    (hdep : cl.deployments.contains
      (slice.nspace, sliceRouterDeploymentNamePrefix ++ slice.name) = true)
    (hsvc : cl.services.contains
      (cfg.controlPlaneNamespace, sliceRouterDeploymentNamePrefix ++ slice.name)
        = true) :
    ReconcileSliceRouter cfg cl f slice =
      (.ret ⟨⟨0⟩, none, false⟩,
       [.getDep slice.nspace (sliceRouterDeploymentNamePrefix ++ slice.name),
        .getSvc cfg.controlPlaneNamespace
          (sliceRouterDeploymentNamePrefix ++ slice.name)]) ∧
    (ReconcileSliceRouter cfg cl f slice).2.filter Op.isWrite = [] ∧
    applyOps cl (ReconcileSliceRouter cfg cl f slice).2 = cl := by
  have hgd := getDeployment_found cl f slice.nspace
    (sliceRouterDeploymentNamePrefix ++ slice.name) hfd hdep
  have hgs := getService_found cl f cfg.controlPlaneNamespace
    (sliceRouterDeploymentNamePrefix ++ slice.name) hfs hsvc
  have hmain : ReconcileSliceRouter cfg cl f slice =
      (.ret ⟨⟨0⟩, none, false⟩,
       [.getDep slice.nspace (sliceRouterDeploymentNamePrefix ++ slice.name),
        .getSvc cfg.controlPlaneNamespace
          (sliceRouterDeploymentNamePrefix ++ slice.name)]) := by
    simp [ReconcileSliceRouter, hgd, hgs]
  exact ⟨hmain, by rw [hmain]; rfl, by rw [hmain]; rfl⟩

/-- C3 witness: the fully provisioned cluster for slice "red". -/
theorem C3_provisioned_slice_is_noop_witness :
    ReconcileSliceRouter cfg0 fullCluster noFaults slice0 =
      (.ret ⟨⟨0⟩, none, false⟩,
       [.getDep slice0.nspace (sliceRouterDeploymentNamePrefix ++ slice0.name),
        .getSvc cfg0.controlPlaneNamespace
          (sliceRouterDeploymentNamePrefix ++ slice0.name)]) ∧
    (ReconcileSliceRouter cfg0 fullCluster noFaults slice0).2.filter
      Op.isWrite = [] ∧
    applyOps fullCluster (ReconcileSliceRouter cfg0 fullCluster noFaults slice0).2
      = fullCluster :=
  C3_provisioned_slice_is_noop cfg0 fullCluster noFaults slice0 rfl rfl
    (by decide) (by decide)

/-- C4 counterexample: a slice whose status subnet is populated ("10.1.0",
non-empty but with only three dot components) and whose router Deployment is
absent makes the Go code panic inside getClusterPrefixPool: no Deployment is
created and no requeue-after result is returned. -/
theorem C4_populated_subnet_can_panic :
    sliceSubnetNotSet sliceBadSubnet = false ∧
    emptyCluster.deployments.contains
      ("ns1", sliceRouterDeploymentNamePrefix ++ "red") = false ∧
    ReconcileSliceRouter cfg0 emptyCluster noFaults sliceBadSubnet =
      (.panic, [.getDep "ns1" "vl3-slice-router-red", .listVppPods "ns1"]) ∧
    (ReconcileSliceRouter cfg0 emptyCluster noFaults sliceBadSubnet).2.filter
      Op.isWrite = [] :=
  ⟨by decide, by decide, by decide, by decide⟩

/-- C4 (amended): for every slice whose status subnet is populated AND splits
into at least four dot-separated components, and whose router Deployment is
absent, with no fault injected on the pod List or the Create,
ReconcileSliceRouter creates exactly one Deployment whose name is
"vl3-slice-router-" ++ slice name, in the slice's namespace, and then returns
a requeue-after result (10 s, nil error, changed=true). -/
theorem C4_creates_one_deployment (cfg : Config) (cl : Cluster) (f : Faults)
    (slice : Slice) (sc : SliceConfigStatus)
    (hfd : f.getDepErr = none) (hfl : f.listPodsErr = none)
    (hfc : f.createDepErr = none)
    (habs : cl.deployments.contains
      (slice.nspace, sliceRouterDeploymentNamePrefix ++ slice.name) = false)
    (hcfg : slice.status.sliceConfig = some sc)
    (hsub : sc.sliceSubnet ≠ "")
    (hwf : 3 < (splitOnDot sc.sliceSubnet).length) :
    ∃ dep,
      ReconcileSliceRouter cfg cl f slice =
        (.ret ⟨⟨10⟩, none, true⟩,
         [.getDep slice.nspace (sliceRouterDeploymentNamePrefix ++ slice.name),
          .listVppPods slice.nspace,
          .createDep dep true]) ∧
      dep.name = sliceRouterDeploymentNamePrefix ++ slice.name ∧
      dep.nspace = slice.nspace ∧
      (ReconcileSliceRouter cfg cl f slice).2.filter Op.isWrite =
        [.createDep dep true] := by
  have hget := getDeployment_notFound cl f slice.nspace
    (sliceRouterDeploymentNamePrefix ++ slice.name) hfd habs
  have hnot : sliceSubnetNotSet slice = false := by
    simp [sliceSubnetNotSet, hcfg, hsub]
  obtain ⟨dep, hdeploy, hnm, hns⟩ :=
    deploySliceRouter_ok cfg cl f slice sc hfl hfc hcfg hwf
  have hmain : ReconcileSliceRouter cfg cl f slice =
      (.ret ⟨⟨10⟩, none, true⟩,
       [.getDep slice.nspace (sliceRouterDeploymentNamePrefix ++ slice.name),
        .listVppPods slice.nspace,
        .createDep dep true]) := by
    simp [ReconcileSliceRouter, hget, hnot, hdeploy]
  exact ⟨dep, hmain, hnm, hns, by rw [hmain]; rfl⟩

/-- C4 witness: slice "red" with subnet "10.1.0.0/16" against the empty
cluster; the created Deployment carries the derived name and namespace. -/
theorem C4_creates_one_deployment_witness :
    ∃ dep,
      ReconcileSliceRouter cfg0 emptyCluster noFaults slice0 =
        (.ret ⟨⟨10⟩, none, true⟩,
         [.getDep slice0.nspace (sliceRouterDeploymentNamePrefix ++ slice0.name),
          .listVppPods slice0.nspace,
          .createDep dep true]) ∧
      dep.name = sliceRouterDeploymentNamePrefix ++ slice0.name ∧
      dep.nspace = slice0.nspace ∧
      (ReconcileSliceRouter cfg0 emptyCluster noFaults slice0).2.filter
        Op.isWrite = [.createDep dep true] :=
  C4_creates_one_deployment cfg0 emptyCluster noFaults slice0
    ⟨"10.1.0.0/16", ⟨5⟩⟩ rfl rfl rfl (by decide) rfl (by decide) (by decide)

/-- C6: every client error other than not-found is surfaced to the caller
unchanged, with no local retry and no state mutation on that path: (1) a
failing Deployment Get, (2) a failing pod List, (3) a failing Deployment
Create, (4) a failing Service Get, (5) a failing Service Create each make the
reconcile pass return exactly that error (empty result, changed=true). -/
theorem C6_client_errors_propagate :
    (∀ (cfg : Config) (cl : Cluster) (f : Faults) (slice : Slice) (e : String),
      f.getDepErr = some e →
      ReconcileSliceRouter cfg cl f slice =
        (.ret ⟨⟨0⟩, some e, true⟩,
         [.getDep slice.nspace (sliceRouterDeploymentNamePrefix ++ slice.name)])) ∧
    (∀ (cfg : Config) (cl : Cluster) (f : Faults) (slice : Slice) (e : String),
      f.getDepErr = none →
      cl.deployments.contains
        (slice.nspace, sliceRouterDeploymentNamePrefix ++ slice.name) = false →
      sliceSubnetNotSet slice = false →
      f.listPodsErr = some e →
      ReconcileSliceRouter cfg cl f slice =
        (.ret ⟨⟨0⟩, some e, true⟩,
         [.getDep slice.nspace (sliceRouterDeploymentNamePrefix ++ slice.name),
          .listVppPods slice.nspace])) ∧
    (∀ (cfg : Config) (cl : Cluster) (f : Faults) (slice : Slice)
        (sc : SliceConfigStatus) (e : String),
      f.getDepErr = none →
      cl.deployments.contains
        (slice.nspace, sliceRouterDeploymentNamePrefix ++ slice.name) = false →
      slice.status.sliceConfig = some sc →
      sc.sliceSubnet ≠ "" →
      3 < (splitOnDot sc.sliceSubnet).length →
      f.listPodsErr = none →
      f.createDepErr = some e →
      (ReconcileSliceRouter cfg cl f slice).1 = .ret ⟨⟨0⟩, some e, true⟩ ∧
      applyOps cl (ReconcileSliceRouter cfg cl f slice).2 = cl) ∧
    (∀ (cfg : Config) (cl : Cluster) (f : Faults) (slice : Slice) (e : String),
      f.getDepErr = none →
      cl.deployments.contains
        (slice.nspace, sliceRouterDeploymentNamePrefix ++ slice.name) = true →
      f.getSvcErr = some e →
      ReconcileSliceRouter cfg cl f slice =
        (.ret ⟨⟨0⟩, some e, true⟩,
         [.getDep slice.nspace (sliceRouterDeploymentNamePrefix ++ slice.name),
          .getSvc cfg.controlPlaneNamespace
            (sliceRouterDeploymentNamePrefix ++ slice.name)])) ∧
    (∀ (cfg : Config) (cl : Cluster) (f : Faults) (slice : Slice)
        (sc : SliceConfigStatus) (e : String),
      f.getDepErr = none →
      cl.deployments.contains
        (slice.nspace, sliceRouterDeploymentNamePrefix ++ slice.name) = true →
      f.getSvcErr = none →
      cl.services.contains
        (cfg.controlPlaneNamespace, sliceRouterDeploymentNamePrefix ++ slice.name)
          = false →
      slice.status.sliceConfig = some sc →
      f.setOwnerSvcErr = none →
      f.createSvcErr = some e →
      (ReconcileSliceRouter cfg cl f slice).1 = .ret ⟨⟨0⟩, some e, true⟩ ∧
      applyOps cl (ReconcileSliceRouter cfg cl f slice).2 = cl) := by
  refine ⟨?_, ?_, ?_, ?_, ?_⟩
  · intro cfg cl f slice e hf
    have hg : getDeployment cl f slice.nspace
        (sliceRouterDeploymentNamePrefix ++ slice.name) = .err e := by
      simp [getDeployment, hf]
    simp [ReconcileSliceRouter, hg]
  · intro cfg cl f slice e hfd habs hsub hl
    have hg := getDeployment_notFound cl f slice.nspace
      (sliceRouterDeploymentNamePrefix ++ slice.name) hfd habs
    have hd : deploySliceRouter cfg cl f slice =
        (.ret (some e), [.listVppPods slice.nspace]) := by
      simp [deploySliceRouter, getNsmDataplaneMode, hl]
    simp [ReconcileSliceRouter, hg, hsub, hd]
  · intro cfg cl f slice sc e hfd habs hcfg hsub hwf hfl hfc
    have hg := getDeployment_notFound cl f slice.nspace
      (sliceRouterDeploymentNamePrefix ++ slice.name) hfd habs
    have hnot : sliceSubnetNotSet slice = false := by
      simp [sliceSubnetNotSet, hcfg, hsub]
    obtain ⟨dep, hd⟩ :=
      deploySliceRouter_createErr cfg cl f slice sc e hfl hfc hcfg hwf
    have hmain : ReconcileSliceRouter cfg cl f slice =
        (.ret ⟨⟨0⟩, some e, true⟩,
         [.getDep slice.nspace (sliceRouterDeploymentNamePrefix ++ slice.name),
          .listVppPods slice.nspace, .createDep dep false,
          .recordEvent "Error creating slice router"]) := by
      simp [ReconcileSliceRouter, hg, hnot, hd]
    exact ⟨by rw [hmain], by rw [hmain]; rfl⟩
  · intro cfg cl f slice e hfd hdep hfs
    have hg := getDeployment_found cl f slice.nspace
      (sliceRouterDeploymentNamePrefix ++ slice.name) hfd hdep
    have hs : getService cl f cfg.controlPlaneNamespace
        (sliceRouterDeploymentNamePrefix ++ slice.name) = .err e := by
      simp [getService, hfs]
    simp [ReconcileSliceRouter, hg, hs]
  · intro cfg cl f slice sc e hfd hdep hfs hsvc hcfg hso hcs
    have hg := getDeployment_found cl f slice.nspace
      (sliceRouterDeploymentNamePrefix ++ slice.name) hfd hdep
    have hs := getService_notFound cl f cfg.controlPlaneNamespace
      (sliceRouterDeploymentNamePrefix ++ slice.name) hfs hsvc
    have hsvcDeploy : deploySliceRouterSvc cfg f slice =
        (some e,
         [.createSvc
            ⟨sliceRouterDeploymentNamePrefix ++ slice.name,
             cfg.controlPlaneNamespace,
             labelsForSliceRouterDeployment slice.name,
             [⟨5000, "grpc"⟩], some slice.name⟩ false,
          .recordEvent "Error creating service for slice router"]) := by
      simp [deploySliceRouterSvc, hso, hcs]
    have hmain : (ReconcileSliceRouter cfg cl f slice).1 =
        .ret ⟨⟨0⟩, some e, true⟩ ∧
        (ReconcileSliceRouter cfg cl f slice).2 =
        [.getDep slice.nspace (sliceRouterDeploymentNamePrefix ++ slice.name),
         .getSvc cfg.controlPlaneNamespace
           (sliceRouterDeploymentNamePrefix ++ slice.name),
         .createSvc
           ⟨sliceRouterDeploymentNamePrefix ++ slice.name,
            cfg.controlPlaneNamespace,
            labelsForSliceRouterDeployment slice.name,
            [⟨5000, "grpc"⟩], some slice.name⟩ false,
         .recordEvent "Error creating service for slice router"] := by
      constructor <;> simp [ReconcileSliceRouter, hg, hs, hcfg, hsvcDeploy]
    exact ⟨hmain.1, by rw [hmain.2]; rfl⟩

/-- C6 witness: the first two error shapes evaluated concretely: a failing
Deployment Get, and a failing pod List on a subnet-ready slice. -/
theorem C6_client_errors_propagate_witness :
    ReconcileSliceRouter cfg0 emptyCluster
        ⟨some "boom", none, none, none, none, none, none, none⟩ slice0 =
      (.ret ⟨⟨0⟩, some "boom", true⟩,
       [.getDep slice0.nspace (sliceRouterDeploymentNamePrefix ++ slice0.name)]) ∧
    ReconcileSliceRouter cfg0 emptyCluster
        ⟨none, none, none, some "down", none, none, none, none⟩ slice0 =
      (.ret ⟨⟨0⟩, some "down", true⟩,
       [.getDep slice0.nspace (sliceRouterDeploymentNamePrefix ++ slice0.name),
        .listVppPods slice0.nspace]) :=
  ⟨C6_client_errors_propagate.1 cfg0 emptyCluster _ slice0 "boom" rfl,
   C6_client_errors_propagate.2.1 cfg0 emptyCluster _ slice0 "down" rfl
     (by decide) (by decide) rfl⟩

/-- C7: the extra environment variables and volumes of the built router
container branch exclusively on the dataplane mode: kernel mode appends
exactly IP_ADDRESS, DST_ROUTES, DNS_NAMESERVERS and DNS_DOMAINS and no extra
volume or mount; VPP mode appends exactly NSE_IPAM_UNIQUE_OCTET plus the
universal-cnf-config volume mount and ConfigMap volume; the two extra sets
never co-occur in one container. -/
theorem C7_dataplane_branching (cfg : Config) (s : Slice) (sc : SliceConfigStatus)
    (ipamOctet : String)
    (hcfg : s.status.sliceConfig = some sc)
    (hwf : 3 < (splitOnDot sc.sliceSubnet).length) :
    ∃ p ck cv,
      getClusterPrefixPool sc.sliceSubnet ipamOctet = some p ∧
      getContainerSpecForSliceRouter cfg s ipamOctet nsmDataplaneKernel = some ck ∧
      getContainerSpecForSliceRouter cfg s ipamOctet nsmDataplaneVpp = some cv ∧
      ck.env =
        [⟨"DATAPLANE", nsmDataplaneKernel⟩,
         ⟨"ENDPOINT_NETWORK_SERVICE", "vl3-service-" ++ s.name⟩,
         ⟨"ENDPOINT_LABELS", "app=" ++ "vl3-nse-" ++ s.name⟩,
         ⟨"TRACER_ENABLED", "true"⟩,
         ⟨"NSREGISTRY_ADDR", "nsmgr." ++ cfg.controlPlaneNamespace⟩,
         ⟨"NSREGISTRY_PORT", "5000"⟩] ++
        [⟨"IP_ADDRESS", p⟩, ⟨"DST_ROUTES", sc.sliceSubnet⟩,
         ⟨"DNS_NAMESERVERS", s.status.dnsIP⟩, ⟨"DNS_DOMAINS", "slice.local"⟩] ∧
      ck.volumeMounts = [] ∧
      getVolumeSpecForSliceRouter s nsmDataplaneKernel =
        [⟨"shared-volume", .emptyDir⟩] ∧
      cv.env =
        [⟨"DATAPLANE", nsmDataplaneVpp⟩,
         ⟨"ENDPOINT_NETWORK_SERVICE", "vl3-service-" ++ s.name⟩,
         ⟨"ENDPOINT_LABELS", "app=" ++ "vl3-nse-" ++ s.name⟩,
         ⟨"TRACER_ENABLED", "true"⟩,
         ⟨"NSREGISTRY_ADDR", "nsmgr." ++ cfg.controlPlaneNamespace⟩,
         ⟨"NSREGISTRY_PORT", "5000"⟩] ++
        [⟨"NSE_IPAM_UNIQUE_OCTET", ipamOctet⟩] ∧
      cv.volumeMounts =
        [⟨"universal-cnf-config-volume", "/etc/universal-cnf/config.yaml",
          "config.yaml"⟩] ∧
      getVolumeSpecForSliceRouter s nsmDataplaneVpp =
        [⟨"shared-volume", .emptyDir⟩,
         ⟨"universal-cnf-config-volume",
          .configMap ("ucnf-vl3-service-" ++ s.name)⟩] ∧
      "NSE_IPAM_UNIQUE_OCTET" ∉ ck.env.map EnvVar.name ∧
      "IP_ADDRESS" ∉ cv.env.map EnvVar.name ∧
      "DST_ROUTES" ∉ cv.env.map EnvVar.name ∧
      "DNS_NAMESERVERS" ∉ cv.env.map EnvVar.name ∧
      "DNS_DOMAINS" ∉ cv.env.map EnvVar.name := by
  obtain ⟨p, hp⟩ : ∃ p, getClusterPrefixPool sc.sliceSubnet ipamOctet = some p := by
    simp [getClusterPrefixPool, hwf]
  have hk : getContainerSpecForSliceRouter cfg s ipamOctet nsmDataplaneKernel =
      some
        { image :=
            if cfg.vl3RouterImage.length ≠ 0 then cfg.vl3RouterImage
            else "nexus.dev.aveshalabs.io/avesha/vl3_ucnf-nse:1.0.0"
          name := "vl3-nse"
          imagePullPolicy :=
            if cfg.vl3RouterPullPolicy.length ≠ 0 then cfg.vl3RouterPullPolicy
            else "Always"
          env :=
            [⟨"DATAPLANE", nsmDataplaneKernel⟩,
             ⟨"ENDPOINT_NETWORK_SERVICE", "vl3-service-" ++ s.name⟩,
             ⟨"ENDPOINT_LABELS", "app=" ++ "vl3-nse-" ++ s.name⟩,
             ⟨"TRACER_ENABLED", "true"⟩,
             ⟨"NSREGISTRY_ADDR", "nsmgr." ++ cfg.controlPlaneNamespace⟩,
             ⟨"NSREGISTRY_PORT", "5000"⟩] ++
            [⟨"IP_ADDRESS", p⟩, ⟨"DST_ROUTES", sc.sliceSubnet⟩,
             ⟨"DNS_NAMESERVERS", s.status.dnsIP⟩, ⟨"DNS_DOMAINS", "slice.local"⟩]
          volumeMounts := []
          privileged := true } := by
    simp only [getContainerSpecForSliceRouter, hcfg, hp]
    rfl
  have hv : getContainerSpecForSliceRouter cfg s ipamOctet nsmDataplaneVpp =
      some
        { image :=
            if cfg.vl3RouterImage.length ≠ 0 then cfg.vl3RouterImage
            else "nexus.dev.aveshalabs.io/avesha/vl3_ucnf-nse:1.0.0"
          name := "vl3-nse"
          imagePullPolicy :=
            if cfg.vl3RouterPullPolicy.length ≠ 0 then cfg.vl3RouterPullPolicy
            else "Always"
          env :=
            [⟨"DATAPLANE", nsmDataplaneVpp⟩,
             ⟨"ENDPOINT_NETWORK_SERVICE", "vl3-service-" ++ s.name⟩,
             ⟨"ENDPOINT_LABELS", "app=" ++ "vl3-nse-" ++ s.name⟩,
             ⟨"TRACER_ENABLED", "true"⟩,
             ⟨"NSREGISTRY_ADDR", "nsmgr." ++ cfg.controlPlaneNamespace⟩,
             ⟨"NSREGISTRY_PORT", "5000"⟩] ++
            [⟨"NSE_IPAM_UNIQUE_OCTET", ipamOctet⟩]
          volumeMounts :=
            [⟨"universal-cnf-config-volume", "/etc/universal-cnf/config.yaml",
              "config.yaml"⟩]
          privileged := true } := by
    simp only [getContainerSpecForSliceRouter, hcfg, hp]
    rfl
  refine ⟨p, _, _, hp, hk, hv, rfl, rfl, ?_, rfl, rfl, ?_, ?_, ?_, ?_, ?_⟩
  · simp [getVolumeSpecForSliceRouter, nsmDataplaneKernel, nsmDataplaneVpp]
  · simp [getVolumeSpecForSliceRouter, nsmDataplaneVpp]
  all_goals simp

/-- C7 witness: the branching read off at a concrete slice and octet. -/
theorem C7_dataplane_branching_witness :
    ∃ p ck cv,
      getClusterPrefixPool "10.1.0.0/16" "5" = some p ∧
      getContainerSpecForSliceRouter cfg0 slice0 "5" nsmDataplaneKernel = some ck ∧
      getContainerSpecForSliceRouter cfg0 slice0 "5" nsmDataplaneVpp = some cv ∧
      ck.env =
        [⟨"DATAPLANE", nsmDataplaneKernel⟩,
         ⟨"ENDPOINT_NETWORK_SERVICE", "vl3-service-" ++ slice0.name⟩,
         ⟨"ENDPOINT_LABELS", "app=" ++ "vl3-nse-" ++ slice0.name⟩,
         ⟨"TRACER_ENABLED", "true"⟩,
         ⟨"NSREGISTRY_ADDR", "nsmgr." ++ cfg0.controlPlaneNamespace⟩,
         ⟨"NSREGISTRY_PORT", "5000"⟩] ++
        [⟨"IP_ADDRESS", p⟩, ⟨"DST_ROUTES", "10.1.0.0/16"⟩,
         ⟨"DNS_NAMESERVERS", slice0.status.dnsIP⟩, ⟨"DNS_DOMAINS", "slice.local"⟩] ∧
      ck.volumeMounts = [] ∧
      getVolumeSpecForSliceRouter slice0 nsmDataplaneKernel =
        [⟨"shared-volume", .emptyDir⟩] ∧
      cv.env =
        [⟨"DATAPLANE", nsmDataplaneVpp⟩,
         ⟨"ENDPOINT_NETWORK_SERVICE", "vl3-service-" ++ slice0.name⟩,
         ⟨"ENDPOINT_LABELS", "app=" ++ "vl3-nse-" ++ slice0.name⟩,
         ⟨"TRACER_ENABLED", "true"⟩,
         ⟨"NSREGISTRY_ADDR", "nsmgr." ++ cfg0.controlPlaneNamespace⟩,
         ⟨"NSREGISTRY_PORT", "5000"⟩] ++
        [⟨"NSE_IPAM_UNIQUE_OCTET", "5"⟩] ∧
      cv.volumeMounts =
        [⟨"universal-cnf-config-volume", "/etc/universal-cnf/config.yaml",
          "config.yaml"⟩] ∧
      getVolumeSpecForSliceRouter slice0 nsmDataplaneVpp =
        [⟨"shared-volume", .emptyDir⟩,
         ⟨"universal-cnf-config-volume",
          .configMap ("ucnf-vl3-service-" ++ slice0.name)⟩] ∧
      "NSE_IPAM_UNIQUE_OCTET" ∉ ck.env.map EnvVar.name ∧
      "IP_ADDRESS" ∉ cv.env.map EnvVar.name ∧
      "DST_ROUTES" ∉ cv.env.map EnvVar.name ∧
      "DNS_NAMESERVERS" ∉ cv.env.map EnvVar.name ∧
      "DNS_DOMAINS" ∉ cv.env.map EnvVar.name :=
  C7_dataplane_branching cfg0 slice0 ⟨"10.1.0.0/16", ⟨5⟩⟩ "5" rfl (by decide)

/-- C8: the router Service built by deploySliceRouterSvc carries the same
derived name as the Deployment ("vl3-slice-router-" + slice name), exposes
exactly one fixed port (5000, named "grpc"), selects the same label set as
the Deployment, and has an owner reference to the Slice set before the
Create call is issued. -/
theorem C8_service_shape (cfg : Config) (f : Faults) (slice : Slice)
    (hso : f.setOwnerSvcErr = none) :
    ∃ sv ok,
      (deploySliceRouterSvc cfg f slice).2.filter Op.isWrite =
        [.createSvc sv ok] ∧
      sv.name = sliceRouterDeploymentNamePrefix ++ slice.name ∧
      sv.nspace = cfg.controlPlaneNamespace ∧
      sv.ports = [⟨5000, "grpc"⟩] ∧
      sv.selector = labelsForSliceRouterDeployment slice.name ∧
      sv.ownerRef = some slice.name ∧
      ∀ ipamOctet dataplane dep,
        deploymentForSliceRouter cfg slice ipamOctet dataplane = some dep →
        dep.selectorMatchLabels = sv.selector ∧
        dep.templateLabels = sv.selector ∧
        dep.name = sv.name := by
  have hdepSide : ∀ ipamOctet dataplane dep,
      deploymentForSliceRouter cfg slice ipamOctet dataplane = some dep →
      dep.selectorMatchLabels = labelsForSliceRouterDeployment slice.name ∧
      dep.templateLabels = labelsForSliceRouterDeployment slice.name ∧
      dep.name = sliceRouterDeploymentNamePrefix ++ slice.name := by
    intro ipamOctet dataplane dep hdep
    obtain ⟨hn, _, hsel, htl, _⟩ :=
      deploymentForSliceRouter_fields cfg slice ipamOctet dataplane dep hdep
    exact ⟨hsel, htl, hn⟩
  cases hcs : f.createSvcErr with
  | some e =>
    refine ⟨⟨sliceRouterDeploymentNamePrefix ++ slice.name,
      cfg.controlPlaneNamespace, labelsForSliceRouterDeployment slice.name,
      [⟨5000, "grpc"⟩], some slice.name⟩, false, ?_, rfl, rfl, rfl, rfl, rfl,
      hdepSide⟩
    have hsvc : deploySliceRouterSvc cfg f slice =
        (some e,
         [.createSvc
            ⟨sliceRouterDeploymentNamePrefix ++ slice.name,
             cfg.controlPlaneNamespace,
             labelsForSliceRouterDeployment slice.name,
             [⟨5000, "grpc"⟩], some slice.name⟩ false,
          .recordEvent "Error creating service for slice router"]) := by
      simp [deploySliceRouterSvc, hso, hcs]
    rw [hsvc]
    rfl
  | none =>
    refine ⟨⟨sliceRouterDeploymentNamePrefix ++ slice.name,
      cfg.controlPlaneNamespace, labelsForSliceRouterDeployment slice.name,
      [⟨5000, "grpc"⟩], some slice.name⟩, true, ?_, rfl, rfl, rfl, rfl, rfl,
      hdepSide⟩
    have hsvc : deploySliceRouterSvc cfg f slice =
        (none,
         [.createSvc
            ⟨sliceRouterDeploymentNamePrefix ++ slice.name,
             cfg.controlPlaneNamespace,
             labelsForSliceRouterDeployment slice.name,
             [⟨5000, "grpc"⟩], some slice.name⟩ true]) := by
      simp [deploySliceRouterSvc, hso, hcs]
    rw [hsvc]
    rfl

/-- C8 witness: the service built for slice "red" under `cfg0`. -/
theorem C8_service_shape_witness :
    ∃ sv ok,
      (deploySliceRouterSvc cfg0 noFaults slice0).2.filter Op.isWrite =
        [.createSvc sv ok] ∧
      sv.name = sliceRouterDeploymentNamePrefix ++ slice0.name ∧
      sv.nspace = cfg0.controlPlaneNamespace ∧
      sv.ports = [⟨5000, "grpc"⟩] ∧
      sv.selector = labelsForSliceRouterDeployment slice0.name ∧
      sv.ownerRef = some slice0.name ∧
      ∀ ipamOctet dataplane dep,
        deploymentForSliceRouter cfg0 slice0 ipamOctet dataplane = some dep →
        dep.selectorMatchLabels = sv.selector ∧
        dep.templateLabels = sv.selector ∧
        dep.name = sv.name :=
  C8_service_shape cfg0 noFaults slice0 rfl

/-- Every operation in a `deploySliceRouter` trace that addresses a
Deployment uses the slice's namespace and the derived name, and none of its
operations addresses a Service. -/
theorem deploySliceRouter_trace_keys (cfg : Config) (cl : Cluster) (f : Faults)
    (slice : Slice) :
    ∀ op ∈ (deploySliceRouter cfg cl f slice).2,
      (∀ k, op.deploymentKey = some k →
        k = (slice.nspace, sliceRouterDeploymentNamePrefix ++ slice.name)) ∧
      op.serviceKey = none := by
  cases hl : f.listPodsErr with
  | some m =>
    have hd : deploySliceRouter cfg cl f slice =
        (.ret (some m), [.listVppPods slice.nspace]) := by
      simp [deploySliceRouter, getNsmDataplaneMode, hl]
    rw [hd]
    intro op hop
    simp only [List.mem_singleton] at hop
    subst hop
    simp [Op.deploymentKey, Op.serviceKey]
  | none =>
    have key : ∀ dp : String, dp = nsmDataplaneKernel ∨ dp = nsmDataplaneVpp →
        getNsmDataplaneMode cl f slice =
          (Except.ok dp, [.listVppPods slice.nspace]) →
        ∀ op ∈ (deploySliceRouter cfg cl f slice).2,
          (∀ k, op.deploymentKey = some k →
            k = (slice.nspace, sliceRouterDeploymentNamePrefix ++ slice.name)) ∧
          op.serviceKey = none := by
      intro dp hdp hmode
      have hvalid : ¬(dp ≠ nsmDataplaneKernel ∧ dp ≠ nsmDataplaneVpp) := by
        rcases hdp with rfl | rfl
        · rintro ⟨h1, _⟩; exact h1 rfl
        · rintro ⟨_, h2⟩; exact h2 rfl
      cases hsc : slice.status.sliceConfig with
      | none =>
        have hEq : deploySliceRouter cfg cl f slice =
            (.panic, [.listVppPods slice.nspace]) := by
          simp [deploySliceRouter, hmode, hvalid, hsc]
        rw [hEq]
        intro op hop
        simp only [List.mem_singleton] at hop
        subst hop
        simp [Op.deploymentKey, Op.serviceKey]
      | some sc =>
        cases hdep : deploymentForSliceRouter cfg slice
            (toString sc.sliceIpam.ipamClusterOctet) dp with
        | none =>
          have hEq : deploySliceRouter cfg cl f slice =
              (.panic, [.listVppPods slice.nspace]) := by
            simp [deploySliceRouter, hmode, hvalid, hsc, hdep]
          rw [hEq]
          intro op hop
          simp only [List.mem_singleton] at hop
          subst hop
          simp [Op.deploymentKey, Op.serviceKey]
        | some dep =>
          obtain ⟨hn, hns, _, _, _⟩ :=
            deploymentForSliceRouter_fields cfg slice _ dp dep hdep
          cases hce : f.createDepErr with
          | some e =>
            have hEq : deploySliceRouter cfg cl f slice =
                (.ret (some e),
                 [.listVppPods slice.nspace, .createDep dep false,
                  .recordEvent "Error creating slice router"]) := by
              simp [deploySliceRouter, hmode, hvalid, hsc, hdep, hce]
            rw [hEq]
            intro op hop
            simp only [List.mem_cons, List.mem_singleton, List.not_mem_nil,
              or_false] at hop
            rcases hop with rfl | rfl | rfl <;>
              simp [Op.deploymentKey, Op.serviceKey, hn, hns]
          | none =>
            have hEq : deploySliceRouter cfg cl f slice =
                (.ret none,
                 [.listVppPods slice.nspace, .createDep dep true]) := by
              simp [deploySliceRouter, hmode, hvalid, hsc, hdep, hce]
            rw [hEq]
            intro op hop
            simp only [List.mem_cons, List.mem_singleton, List.not_mem_nil,
              or_false] at hop
            rcases hop with rfl | rfl <;>
              simp [Op.deploymentKey, Op.serviceKey, hn, hns]
    by_cases hp : 0 < (cl.vppPods.filter (fun p => p.1 = slice.nspace)).length
    · exact key nsmDataplaneVpp (Or.inr rfl)
        (getNsmDataplaneMode_vpp cl f slice hl hp)
    · exact key nsmDataplaneKernel (Or.inl rfl)
        (getNsmDataplaneMode_kernel cl f slice hl (Nat.eq_zero_of_not_pos hp))

/-- Every operation in a `deploySliceRouterSvc` trace that addresses a
Service uses the control-plane namespace and the derived name, and none of
its operations addresses a Deployment. -/
theorem deploySliceRouterSvc_trace_keys (cfg : Config) (f : Faults)
    (slice : Slice) :
    ∀ op ∈ (deploySliceRouterSvc cfg f slice).2,
      op.deploymentKey = none ∧
      (∀ k, op.serviceKey = some k →
        k = (cfg.controlPlaneNamespace,
             sliceRouterDeploymentNamePrefix ++ slice.name)) := by
  cases hso : f.setOwnerSvcErr with
  | some e =>
    have h : deploySliceRouterSvc cfg f slice = (some e, []) := by
      simp [deploySliceRouterSvc, hso]
    rw [h]
    intro op hop
    simp at hop
  | none =>
    cases hcs : f.createSvcErr with
    | some e =>
      have h : deploySliceRouterSvc cfg f slice =
          (some e,
           [.createSvc
              ⟨sliceRouterDeploymentNamePrefix ++ slice.name,
               cfg.controlPlaneNamespace,
               labelsForSliceRouterDeployment slice.name,
               [⟨5000, "grpc"⟩], some slice.name⟩ false,
            .recordEvent "Error creating service for slice router"]) := by
        simp [deploySliceRouterSvc, hso, hcs]
      rw [h]
      intro op hop
      simp only [List.mem_cons, List.mem_singleton, List.not_mem_nil,
        or_false] at hop
      rcases hop with rfl | rfl <;> simp [Op.deploymentKey, Op.serviceKey]
    | none =>
      have h : deploySliceRouterSvc cfg f slice =
          (none,
           [.createSvc
              ⟨sliceRouterDeploymentNamePrefix ++ slice.name,
               cfg.controlPlaneNamespace,
               labelsForSliceRouterDeployment slice.name,
               [⟨5000, "grpc"⟩], some slice.name⟩ true]) := by
        simp [deploySliceRouterSvc, hso, hcs]
      rw [h]
      intro op hop
      simp only [List.mem_singleton] at hop
      subst hop
      simp [Op.deploymentKey, Op.serviceKey]

/-- Every Deployment-addressing operation of a reconcile trace uses the
slice's namespace with the derived name, and every Service-addressing one the
control-plane namespace with the same derived name. -/
theorem ReconcileSliceRouter_trace_keys (cfg : Config) (cl : Cluster)
    (f : Faults) (slice : Slice) :
    ∀ op ∈ (ReconcileSliceRouter cfg cl f slice).2,
      (∀ k, op.deploymentKey = some k →
        k = (slice.nspace, sliceRouterDeploymentNamePrefix ++ slice.name)) ∧
      (∀ k, op.serviceKey = some k →
        k = (cfg.controlPlaneNamespace,
             sliceRouterDeploymentNamePrefix ++ slice.name)) := by
  cases hg : getDeployment cl f slice.nspace
      (sliceRouterDeploymentNamePrefix ++ slice.name) with
  | err e =>
    have hR : (ReconcileSliceRouter cfg cl f slice).2 =
        [.getDep slice.nspace (sliceRouterDeploymentNamePrefix ++ slice.name)] := by
      simp [ReconcileSliceRouter, hg]
    rw [hR]
    intro op hop
    simp only [List.mem_singleton] at hop
    subst hop
    simp [Op.deploymentKey, Op.serviceKey]
  | notFound =>
    cases hsub : sliceSubnetNotSet slice with
    | true =>
      have hR : (ReconcileSliceRouter cfg cl f slice).2 =
          [.getDep slice.nspace (sliceRouterDeploymentNamePrefix ++ slice.name)] := by
        simp [ReconcileSliceRouter, hg, hsub]
      rw [hR]
      intro op hop
      simp only [List.mem_singleton] at hop
      subst hop
      simp [Op.deploymentKey, Op.serviceKey]
    | false =>
      have hR : (ReconcileSliceRouter cfg cl f slice).2 =
          .getDep slice.nspace (sliceRouterDeploymentNamePrefix ++ slice.name) ::
            (deploySliceRouter cfg cl f slice).2 := by
        rcases hd : deploySliceRouter cfg cl f slice with ⟨p, t1⟩
        cases p with
        | panic => simp [ReconcileSliceRouter, hg, hsub, hd]
        | ret a =>
          cases a with
          | none => simp [ReconcileSliceRouter, hg, hsub, hd]
          | some e => simp [ReconcileSliceRouter, hg, hsub, hd]
      rw [hR]
      intro op hop
      rcases List.mem_cons.1 hop with rfl | hop2
      · simp [Op.deploymentKey, Op.serviceKey]
      · have h := deploySliceRouter_trace_keys cfg cl f slice op hop2
        exact ⟨h.1, by simp [h.2]⟩
  | found =>
    cases hs : getService cl f cfg.controlPlaneNamespace
        (sliceRouterDeploymentNamePrefix ++ slice.name) with
    | err e =>
      have hR : (ReconcileSliceRouter cfg cl f slice).2 =
          [.getDep slice.nspace (sliceRouterDeploymentNamePrefix ++ slice.name),
           .getSvc cfg.controlPlaneNamespace
             (sliceRouterDeploymentNamePrefix ++ slice.name)] := by
        simp [ReconcileSliceRouter, hg, hs]
      rw [hR]
      intro op hop
      simp only [List.mem_cons, List.mem_singleton, List.not_mem_nil,
        or_false] at hop
      rcases hop with rfl | rfl <;> simp [Op.deploymentKey, Op.serviceKey]
    | found =>
      have hR : (ReconcileSliceRouter cfg cl f slice).2 =
          [.getDep slice.nspace (sliceRouterDeploymentNamePrefix ++ slice.name),
           .getSvc cfg.controlPlaneNamespace
             (sliceRouterDeploymentNamePrefix ++ slice.name)] := by
        simp [ReconcileSliceRouter, hg, hs]
      rw [hR]
      intro op hop
      simp only [List.mem_cons, List.mem_singleton, List.not_mem_nil,
        or_false] at hop
      rcases hop with rfl | rfl <;> simp [Op.deploymentKey, Op.serviceKey]
    | notFound =>
      cases hsc : slice.status.sliceConfig with
      | none =>
        have hR : (ReconcileSliceRouter cfg cl f slice).2 =
            [.getDep slice.nspace (sliceRouterDeploymentNamePrefix ++ slice.name),
             .getSvc cfg.controlPlaneNamespace
               (sliceRouterDeploymentNamePrefix ++ slice.name)] := by
          simp [ReconcileSliceRouter, hg, hs, hsc]
        rw [hR]
        intro op hop
        simp only [List.mem_cons, List.mem_singleton, List.not_mem_nil,
          or_false] at hop
        rcases hop with rfl | rfl <;> simp [Op.deploymentKey, Op.serviceKey]
      | some sc =>
        have hR : (ReconcileSliceRouter cfg cl f slice).2 =
            [.getDep slice.nspace (sliceRouterDeploymentNamePrefix ++ slice.name),
             .getSvc cfg.controlPlaneNamespace
               (sliceRouterDeploymentNamePrefix ++ slice.name)] ++
              (deploySliceRouterSvc cfg f slice).2 := by
          rcases hd : deploySliceRouterSvc cfg f slice with ⟨a, t3⟩
          cases a with
          | none => simp [ReconcileSliceRouter, hg, hs, hsc, hd]
          | some e => simp [ReconcileSliceRouter, hg, hs, hsc, hd]
        rw [hR]
        intro op hop
        rcases List.mem_append.1 hop with h2 | h2
        · simp only [List.mem_cons, List.mem_singleton, List.not_mem_nil,
            or_false] at h2
          rcases h2 with rfl | rfl <;> simp [Op.deploymentKey, Op.serviceKey]
        · have h := deploySliceRouterSvc_trace_keys cfg f slice op h2
          exact ⟨by simp [h.1], h.2⟩

/-- Every operation of a cleanup trace addresses the NetworkService with the
derived name in the control-plane namespace. -/
theorem cleanupSliceRouter_trace_keys (cfg : Config) (cl : Cluster) (f : Faults)
    (sliceName : String) :
    ∀ op ∈ (cleanupSliceRouter cfg cl f sliceName).2,
      ∀ k, op.nseKey = some k →
        k = (cfg.controlPlaneNamespace, "vl3-service-" ++ sliceName) := by
  cases hg : getNetworkService cl f cfg.controlPlaneNamespace
      ("vl3-service-" ++ sliceName) with
  | err e =>
    have hR : (cleanupSliceRouter cfg cl f sliceName).2 =
        [.getNse cfg.controlPlaneNamespace ("vl3-service-" ++ sliceName)] := by
      simp [cleanupSliceRouter, hg]
    rw [hR]
    intro op hop
    simp only [List.mem_singleton] at hop
    subst hop
    simp [Op.nseKey]
  | notFound =>
    have hR : (cleanupSliceRouter cfg cl f sliceName).2 =
        [.getNse cfg.controlPlaneNamespace ("vl3-service-" ++ sliceName)] := by
      simp [cleanupSliceRouter, hg]
    rw [hR]
    intro op hop
    simp only [List.mem_singleton] at hop
    subst hop
    simp [Op.nseKey]
  | found =>
    cases hde : f.deleteNseErr with
    | some e =>
      have hR : (cleanupSliceRouter cfg cl f sliceName).2 =
          [.getNse cfg.controlPlaneNamespace ("vl3-service-" ++ sliceName),
           .deleteNse cfg.controlPlaneNamespace ("vl3-service-" ++ sliceName)
             false] := by
        simp [cleanupSliceRouter, hg, hde]
      rw [hR]
      intro op hop
      simp only [List.mem_cons, List.mem_singleton, List.not_mem_nil,
        or_false] at hop
      rcases hop with rfl | rfl <;> simp [Op.nseKey]
    | none =>
      have hR : (cleanupSliceRouter cfg cl f sliceName).2 =
          [.getNse cfg.controlPlaneNamespace ("vl3-service-" ++ sliceName),
           .deleteNse cfg.controlPlaneNamespace ("vl3-service-" ++ sliceName)
             true] := by
        simp [cleanupSliceRouter, hg, hde]
      rw [hR]
      intro op hop
      simp only [List.mem_cons, List.mem_singleton, List.not_mem_nil,
        or_false] at hop
      rcases hop with rfl | rfl <;> simp [Op.nseKey]

/-- C10: the router Deployment and the router Service share the derived name
but not a namespace: reconcile reads and creates the Deployment in the
slice's own namespace and the Service (and the cleanup target NetworkService)
in the fixed control-plane namespace, so whenever the slice's namespace
differs from the control-plane namespace, every Deployment operation and
every Service operation of one reconcile address different namespaces under
the same name. -/
theorem C10_router_object_namespaces (cfg : Config) (cl : Cluster) (f : Faults)
    (slice : Slice) (sliceName : String) :
    (∀ op ∈ (ReconcileSliceRouter cfg cl f slice).2,
      (∀ k, op.deploymentKey = some k →
        k = (slice.nspace, sliceRouterDeploymentNamePrefix ++ slice.name)) ∧
      (∀ k, op.serviceKey = some k →
        k = (cfg.controlPlaneNamespace,
             sliceRouterDeploymentNamePrefix ++ slice.name))) ∧
    (∀ op ∈ (cleanupSliceRouter cfg cl f sliceName).2,
      ∀ k, op.nseKey = some k →
        k = (cfg.controlPlaneNamespace, "vl3-service-" ++ sliceName)) ∧
    (slice.nspace ≠ cfg.controlPlaneNamespace →
      ∀ op₁ ∈ (ReconcileSliceRouter cfg cl f slice).2,
      ∀ op₂ ∈ (ReconcileSliceRouter cfg cl f slice).2,
      ∀ k₁ k₂, op₁.deploymentKey = some k₁ → op₂.serviceKey = some k₂ →
        k₁.1 ≠ k₂.1 ∧ k₁.2 = k₂.2) := by
  refine ⟨ReconcileSliceRouter_trace_keys cfg cl f slice,
    cleanupSliceRouter_trace_keys cfg cl f sliceName, ?_⟩
  intro hne op₁ h1 op₂ h2 k₁ k₂ hk₁ hk₂
  have e1 := (ReconcileSliceRouter_trace_keys cfg cl f slice op₁ h1).1 k₁ hk₁
  have e2 := (ReconcileSliceRouter_trace_keys cfg cl f slice op₂ h2).2 k₂ hk₂
  subst e1
  subst e2
  exact ⟨hne, rfl⟩

/-- C10 witness: the conjunction evaluated for slice "red" against the empty
cluster under `cfg0`. -/
theorem C10_router_object_namespaces_witness :
    (∀ op ∈ (ReconcileSliceRouter cfg0 emptyCluster noFaults slice0).2,
      (∀ k, op.deploymentKey = some k →
        k = (slice0.nspace, sliceRouterDeploymentNamePrefix ++ slice0.name)) ∧
      (∀ k, op.serviceKey = some k →
        k = (cfg0.controlPlaneNamespace,
             sliceRouterDeploymentNamePrefix ++ slice0.name))) ∧
    (∀ op ∈ (cleanupSliceRouter cfg0 emptyCluster noFaults "red").2,
      ∀ k, op.nseKey = some k →
        k = (cfg0.controlPlaneNamespace, "vl3-service-" ++ "red")) ∧
    (slice0.nspace ≠ cfg0.controlPlaneNamespace →
      ∀ op₁ ∈ (ReconcileSliceRouter cfg0 emptyCluster noFaults slice0).2,
      ∀ op₂ ∈ (ReconcileSliceRouter cfg0 emptyCluster noFaults slice0).2,
      ∀ k₁ k₂, op₁.deploymentKey = some k₁ → op₂.serviceKey = some k₂ →
        k₁.1 ≠ k₂.1 ∧ k₁.2 = k₂.2) :=
  C10_router_object_namespaces cfg0 emptyCluster noFaults slice0 "red"

end SliceRouter
